import Mathlib

/-!
Shallow embedding of `src/audiodownloader.py` (v0.31) and verification of the
frozen claims about it.

Python strings are modelled as Lean `String`; the Python string methods used
by the source (`strip`, `startswith`, `endswith`, `lower`, the `in` substring
test, `rstrip('/')`, `split('/')`, `os.path.basename`) are defined below on
`String.data` so that proofs can work on `List Char`.

The external collaborator `yt_dlp` is modelled as an oracle (`World`): the
result of the metadata probe (`extract_info(download=False)`) and of the
actual fetch (`extract_info(download=True)`).  The filesystem seen by
`os.walk` is modelled as the flat list of `(root, file)` pairs in enumeration
order.  Logging calls and yt-dlp option dictionaries do not influence any
return value of the source and are not part of the state.
-/

namespace AudioDL

/-- Python `str.strip()` on the character list: remove leading and trailing
whitespace. -/
def stripChars (l : List Char) : List Char :=
  (l.dropWhile Char.isWhitespace).rdropWhile Char.isWhitespace

/-- Python `url.strip()`. -/
def pyStrip (s : String) : String :=
  ⟨stripChars s.data⟩

/-- Python `s.startswith(pre)`. -/
def pyStartsWith (s pre : String) : Bool :=
  pre.data.isPrefixOf s.data

/-- Python `s.endswith(suf)`. -/
def pyEndsWith (s suf : String) : Bool :=
  suf.data.isSuffixOf s.data

/-- Python `s.lower()`. -/
def pyLower (s : String) : String :=
  ⟨s.data.map Char.toLower⟩

/-- Python `needle in hay` on strings (substring test). -/
def pyContains (hay needle : String) : Bool :=
  decide (needle.data <:+: hay.data)

/-- Python `url.rstrip('/')`. -/
def pyRstripSlash (s : String) : String :=
  ⟨s.data.rdropWhile (fun c => c = '/')⟩

/-- Python `s.split('/')` on the character list: pieces between separators,
with empty pieces kept (splitting the empty string gives one empty piece,
exactly as in Python with an explicit separator). -/
def splitOnChar (sep : Char) : List Char → List (List Char)
  | [] => [[]]
  | c :: rest =>
    if c = sep then [] :: splitOnChar sep rest
    else
      match splitOnChar sep rest with
      | [] => [[c]]
      | h :: t => (c :: h) :: t

/-- Python `s.split('/')`. -/
def pySplitSlash (s : String) : List String :=
  (splitOnChar '/' s.data).map (fun l => ⟨l⟩)

/-- Python `os.path.basename` for POSIX paths: the part after the last `/`. -/
def pyBasename (p : String) : String :=
  ((pySplitSlash p).getLast?).getD ""

/-! ## Configuration (`get_default_config`, `load_config`, lines 9-54)

The JSON dictionaries the source manipulates are modelled by records whose
fields are `Option`s: `none` models a missing key, i.e. a `KeyError` on
subscript access.  `get_default_config` supplies every key. -/

/-- The `audio` block of the config dictionary. -/
structure JAudio where
  codec : Option String
  quality : Option String
  sample_rate : Option String
deriving DecidableEq, Repr

/-- The `paths` block of the config dictionary. -/
structure JPaths where
  links_file : Option String
  output_dir : Option String
  log_file : Option String
deriving DecidableEq, Repr

/-- The `behavior` block of the config dictionary.
`progress_update_interval` is a Python float holding small decimal values;
it is modelled as a rational. -/
structure JBehavior where
  skip_existing : Option Bool
  progress_update_interval : Option ℚ
  quiet_download : Option Bool
deriving DecidableEq, Repr

/-- The `logging` block of the config dictionary. -/
structure JLogging where
  level : Option String
  console_level : Option String
  format : Option String
  date_format : Option String
deriving DecidableEq, Repr

/-- A parsed config-file dictionary: any of the four blocks may be absent. -/
structure JConfig where
  audio : Option JAudio
  paths : Option JPaths
  behavior : Option JBehavior
  logging : Option JLogging
deriving DecidableEq, Repr

/-- `get_default_config` (source lines 30-54): the fixed default
configuration, with every key present. -/
def get_default_config : JConfig :=
  { audio := some
      { codec := some "mp3"
        quality := some "320"
        sample_rate := some "48000" }
    paths := some
      { links_file := some "links.txt"
        output_dir := some "./audiodownloads"
        log_file := some "audiodownloader.log" }
    behavior := some
      { skip_existing := some true
        progress_update_interval := some 1
        quiet_download := some false }
    logging := some
      { level := some "INFO"
        console_level := some "INFO"
        format := some "%(asctime)s - %(levelname)s - %(message)s"
        date_format := some "%Y-%m-%d %H:%M:%S" } }

/-- What the attempt to read and parse the config file produced: the file was
absent (`os.path.exists` false), reading or parsing raised
(`json.JSONDecodeError` or any other exception), or it parsed to a
dictionary. -/
inductive ConfigSource
  | missing
  | parse_error
  | io_error
  | ok (j : JConfig)
deriving DecidableEq, Repr

/-- `load_config` (source lines 9-28): return the parsed dictionary as-is
when the file parses, and the whole default dictionary when the file is
missing, unparseable, or unreadable.  Every branch returns, so loading
configuration never aborts the run. -/
def load_config : ConfigSource → JConfig
  | .missing => get_default_config
  | .parse_error => get_default_config
  | .io_error => get_default_config
  | .ok j => j

/-- The dictionary subscripts performed by `setup_logging` (source lines
56-78): `config['paths']['log_file']`, `config['logging']['level']`,
`config['logging']['console_level']`, `config['logging']['format']`,
`config['logging']['date_format']`.  Returns `none` when any key is absent,
modelling the uncaught `KeyError` that aborts the run. -/
def setup_logging_lookups (j : JConfig) : Option (String × String × String × String × String) :=
  match j.paths, j.logging with
  | some p, some lg =>
    match p.log_file, lg.level, lg.console_level, lg.format, lg.date_format with
    | some a, some b, some c, some d, some e => some (a, b, c, d, e)
    | _, _, _, _, _ => none
  | _, _ => none

/-! ## Progress throttle (`class DownloadProgress`, lines 111-130)

Percentages are Python floats parsed from `_percent_str`; the values involved
are small decimals, modelled as rationals.  A malformed percentage string
raises `ValueError`, which the hook swallows (`none` below).  A missing
`_percent_str` key defaults to `'0%'`, i.e. percentage 0, so only genuinely
malformed strings are `none`. -/

/-- Mutable state of one `DownloadProgress` instance. -/
structure DownloadProgress where
  url : String
  last_progress : ℚ
  update_interval : ℚ
deriving DecidableEq, Repr

/-- One call to `progress_hook`: the status dictionary, reduced to the fields
the hook reads. -/
inductive HookEvent
  | downloading (percent : Option ℚ)
  | finished
  | error
deriving DecidableEq, Repr

/-- An observable emission of the hook: a console progress print, the
completion log line, or the error log line. -/
inductive Notice
  | progress (p : ℚ)
  | completed (url : String)
  | failed (url : String)
deriving DecidableEq, Repr

/-- `DownloadProgress.progress_hook` (lines 118-130): returns the updated
state and the notifications emitted by this call. -/
def progress_hook (s : DownloadProgress) (d : HookEvent) : DownloadProgress × List Notice :=
  match d with
  | .downloading none => (s, [])
  | .downloading (some p) =>
    if p - s.last_progress ≥ s.update_interval then
      ({ s with last_progress := p }, [.progress p])
    else
      (s, [])
  | .finished => (s, [.completed s.url])
  | .error => (s, [.failed s.url])

/-- Feed a sequence of events through one `DownloadProgress` instance,
collecting every emission in order. -/
def run_hooks (s : DownloadProgress) (ds : List HookEvent) : DownloadProgress × List Notice :=
  ds.foldl (fun acc d =>
    let r := progress_hook acc.1 d
    (r.1, acc.2 ++ r.2)) (s, [])

/-! ## Existing-file detector (`check_file_exists`, lines 132-161) -/

/-- The resolved configuration as the rest of the program reads it: the
result of subscripting a fully-populated config dictionary.  (A run whose
config dictionary is missing keys dies with `KeyError` before reaching this
point; see `setup_logging_lookups`.) -/
structure Config where
  codec : String
  quality : String
  sample_rate : String
  links_file : String
  output_dir : String
  log_file : String
  skip_existing : Bool
  progress_update_interval : ℚ
  quiet_download : Bool
deriving DecidableEq, Repr

/-- The `Config` obtained by subscripting `get_default_config`. -/
def default_config : Config :=
  { codec := "mp3"
    quality := "320"
    sample_rate := "48000"
    links_file := "links.txt"
    output_dir := "./audiodownloads"
    log_file := "audiodownloader.log"
    skip_existing := true
    progress_update_interval := 1
    quiet_download := false }

/-- One file seen by `os.walk(output_dir)`: the directory it sits in and its
bare filename.  The walk is modelled as the flat list of such pairs in
enumeration order. -/
structure FsEntry where
  root : String
  file : String
deriving DecidableEq, Repr

/-- The per-file test of the scan loops in `check_file_exists` (lines 146 and
158): extension matches the configured codec and the needle occurs in the
filename case-insensitively. -/
def matching_file (needle ext : String) (e : FsEntry) : Bool :=
  pyEndsWith e.file ("." ++ ext) && pyContains (pyLower e.file) (pyLower needle)

/-- One scan loop of `check_file_exists`: first file (in walk order) that
matches, if any. -/
def scan_for (needle ext : String) (fs : List FsEntry) : Option FsEntry :=
  fs.find? (matching_file needle ext)

/-- `os.path.join(root, file)` for POSIX paths. -/
def os_path_join (root file : String) : String :=
  root ++ "/" ++ file

/-- The metadata dictionary returned by `extract_info`, reduced to the key
the control flow reads.  `none` models a missing `'title'` key. -/
structure InfoDict where
  title : Option String
deriving DecidableEq, Repr

/-- `check_file_exists` (lines 132-161).  `info` is `some d` when
`info_dict` is truthy.  Returns `some path` in place of `(True, path)` and
`none` in place of `(False, None)`. -/
def check_file_exists (url : String) (info : Option InfoDict) (cfg : Config) (fs : List FsEntry) :
    Option String :=
  if !cfg.skip_existing then none
  else
    let byTitle : Option String :=
      match info with
      | some d =>
        let title := d.title.getD ""
        if title ≠ "" then
          (scan_for title cfg.codec fs).map (fun e => os_path_join e.root e.file)
        else none
      | none => none
    match byTitle with
    | some p => some p
    | none =>
      let url_parts := pySplitSlash (pyRstripSlash url)
      let potential_title := url_parts.getLast?.getD "unknown"
      (scan_for potential_title cfg.codec fs).map (fun e => os_path_join e.root e.file)

/-! ## `download_audio` (lines 163-230)

The two `yt_dlp` calls are external: their results are supplied by a `World`
value.  Every exception raised by the probe call is swallowed (lines
184-186); the fetch call's exceptions are caught by the outer handlers
(lines 212-230), so `download_audio` always returns a string.  The second
component of the result records whether the fetch call
(`extract_info(url, download=True)`) was reached. -/

/-- Result of the probe call `extract_info(url, download=False)`:
success with a truthy dictionary, success with a falsy result, or any
exception (swallowed by the inner handler). -/
inductive ProbeResult
  | ok (info : Option InfoDict)
  | failed
deriving DecidableEq, Repr

/-- Result of the fetch call `extract_info(url, download=True)`: a returned
dictionary (possibly falsy), or one of the exception classes handled at
lines 212-230. -/
inductive FetchResult
  | ok (info : Option InfoDict)
  | download_error (msg : String)
  | extractor_error (msg : String)
  | other_error (msg : String)
deriving DecidableEq, Repr

/-- The behaviour of the external collaborator for one URL. -/
structure World where
  probe : ProbeResult
  fetch : FetchResult
deriving DecidableEq, Repr

/-- The error-kind taxonomy used by the `DownloadError` handler
(lines 212-222). -/
inductive ErrorKind
  | NotFound
  | Forbidden
  | UnsupportedUrl
  | Generic
deriving DecidableEq, Repr

/-- The substring classification chain of the `DownloadError` handler
(lines 214-221). -/
def classify_download_error (msg : String) : ErrorKind :=
  if pyContains msg "HTTP Error 404" then .NotFound
  else if pyContains msg "HTTP Error 403" then .Forbidden
  else if pyContains msg "Unsupported URL" then .UnsupportedUrl
  else .Generic

/-- The log line emitted by the `DownloadError` handler, one per kind
(lines 214-221). -/
def download_error_log (url msg : String) : String :=
  match classify_download_error msg with
  | .NotFound => "Content not found (404): " ++ url
  | .Forbidden => "Access forbidden (403): " ++ url
  | .UnsupportedUrl => "Unsupported URL format: " ++ url
  | .Generic => "Download error for " ++ url ++ ": " ++ msg

/-- `download_audio` (lines 163-230): returns the title string handed back
to `main`, paired with whether the fetch call was invoked. -/
def download_audio (url : String) (cfg : Config) (fs : List FsEntry) (w : World) :
    String × Bool :=
  let skipResult : Option String :=
    match w.probe with
    | .ok (some d) =>
      match check_file_exists url (some d) cfg fs with
      | some existing_file => some ("SKIPPED (exists: " ++ pyBasename existing_file ++ ")")
      | none => none
    | .ok none => none
    | .failed => none
  match skipResult with
  | some s => (s, false)
  | none =>
    match w.fetch with
    | .ok (some d) => (d.title.getD "Unknown Title", true)
    | .ok none => ("NO INFO EXTRACTED", true)
    | .download_error _ => ("DOWNLOAD ERROR", true)
    | .extractor_error _ => ("EXTRACTOR ERROR", true)
    | .other_error _ => ("UNEXPECTED ERROR", true)

/-! ## The main loop (`main`, lines 232-334)

`args.url` is modelled as `Option String` (`none` when the flag is absent).
The loop `for i, url in enumerate(lines)` iterates over the live list whose
only mutations are at the index just visited, so iterating over the indices
`List.range lines.length` of the evolving list is faithful.  Each write of
the links file (lines 321-326) is recorded as a snapshot of the whole line
list; a failing write is caught and only logged, so the snapshot list models
the attempted writes. -/

/-- The four counters of `main` (lines 294-297), in declaration order. -/
structure RunStats where
  processed : ℕ
  success : ℕ
  error : ℕ
  skipped : ℕ
deriving DecidableEq, Repr

/-- The list literal of line 313. -/
def sentinel_titles : List String :=
  ["DOWNLOAD ERROR", "EXTRACTOR ERROR", "UNEXPECTED ERROR", "NO INFO EXTRACTED"]

/-- The counter update of lines 305 and 310-318 for one processed entry. -/
def bump_stats (st : RunStats) (title : String) : RunStats :=
  let st := { st with processed := st.processed + 1 }
  if pyStartsWith title "SKIPPED" then { st with skipped := st.skipped + 1 }
  else if !sentinel_titles.contains title then { st with success := st.success + 1 }
  else { st with error := st.error + 1 }

/-- The line rewrite of lines 310-318: `url` is the stripped URL, `title`
the string returned by `download_audio`. -/
def annotate_line (url title : String) : String :=
  if pyStartsWith title "SKIPPED" then "# " ++ url ++ " # " ++ title ++ "\n"
  else if !sentinel_titles.contains title then "# " ++ url ++ " # " ++ title ++ "\n"
  else "# " ++ url ++ " # ERROR: " ++ title ++ "\n"

/-- The eligibility test of line 302 applied to the already-stripped URL:
`not (not url or url.startswith('#') or not (url.startswith('https://') or
url.startswith('http://')))`. -/
def url_eligible (url : String) : Bool :=
  !(url.data.isEmpty || pyStartsWith url "#" ||
    !(pyStartsWith url "https://" || pyStartsWith url "http://"))

/-- Eligibility of a raw line: strip first (line 301), then test. -/
def is_eligible (line : String) : Bool :=
  url_eligible (pyStrip line)

/-- Python truthiness of `args.url` (`if args.url:` at line 276,
`if not args.url:` at line 321): present and non-empty. -/
def url_mode (urlArg : Option String) : Bool :=
  match urlArg with
  | some u => !u.data.isEmpty
  | none => false

/-- State of one iteration of the main loop: the live line list, the four
counters, and the snapshots written to the links file so far. -/
structure LoopState where
  lines : List String
  stats : RunStats
  writes : List (List String)
deriving DecidableEq, Repr

/-- One iteration of the loop body (lines 299-326) at index `i`.  `fsAt i`
is the output-directory contents and `ws i` the collaborator's behaviour at
the time of the `i`-th iteration. -/
def loop_step (urlArg : Option String) (cfg : Config) (fsAt : ℕ → List FsEntry)
    (ws : ℕ → World) (s : LoopState) (i : ℕ) : LoopState :=
  match s.lines[i]? with
  | none => s
  | some line =>
    let url := pyStrip line
    if !url_eligible url then s
    else
      let title := (download_audio url cfg (fsAt i) (ws i)).1
      let lines' := s.lines.set i (annotate_line url title)
      let writes' := if url_mode urlArg then s.writes else s.writes ++ [lines']
      { lines := lines', stats := bump_stats s.stats title, writes := writes' }

/-- Run the loop body over a list of indices. -/
def run_loop (urlArg : Option String) (cfg : Config) (fsAt : ℕ → List FsEntry)
    (ws : ℕ → World) (s : LoopState) (idxs : List ℕ) : LoopState :=
  idxs.foldl (loop_step urlArg cfg fsAt ws) s

/-- What opening and reading the links file produced (lines 282-292). -/
inductive LinksFileSt
  | absent
  | unreadable
  | content (lines : List String)
deriving DecidableEq, Repr

/-- The early returns of lines 287-292: `none` models `return`. -/
def links_from_file : LinksFileSt → Option (List String)
  | .absent => none
  | .unreadable => none
  | .content ls => some ls

/-- Line selection (lines 276-292): single-URL mode when `args.url` is
truthy, otherwise read the links file. -/
def select_lines (urlArg : Option String) (lf : LinksFileSt) : Option (List String) :=
  match urlArg with
  | some u => if !u.data.isEmpty then some [u] else links_from_file lf
  | none => links_from_file lf

/-- The observable result of a completed run. -/
structure RunResult where
  lines : List String
  stats : RunStats
  writes : List (List String)
deriving DecidableEq, Repr

/-- `main` from line 270 on, for an already-resolved configuration:
`dirOk` is the result of `ensure_output_directory`; `none` models the early
returns (invalid output directory, unopenable links file in links-file
mode). -/
def run_main (dirOk : Bool) (urlArg : Option String) (lf : LinksFileSt) (cfg : Config)
    (fsAt : ℕ → List FsEntry) (ws : ℕ → World) : Option RunResult :=
  if !dirOk then none
  else
    (select_lines urlArg lf).map (fun ls =>
      let fin := run_loop urlArg cfg fsAt ws ⟨ls, ⟨0, 0, 0, 0⟩, []⟩ (List.range ls.length)
      ⟨fin.lines, fin.stats, fin.writes⟩)

/-! ## Helper lemmas -/

/-- Stripping cannot remove a non-whitespace head character. -/
lemma stripChars_cons_of_not_ws {c : Char} (h : ¬c.isWhitespace) (m : List Char) :
    ∃ t, stripChars (c :: m) = c :: t := by
  unfold stripChars
  rw [List.dropWhile_cons, if_neg (by simpa using h)]
  have hne : (c :: m).rdropWhile Char.isWhitespace ≠ [] := by
    rw [Ne, List.rdropWhile_eq_nil_iff]
    intro hall
    exact h (by simpa using hall c (List.mem_cons_self c m))
  obtain ⟨a, t, hat⟩ := List.exists_cons_of_ne_nil hne
  have hpre := List.rdropWhile_prefix Char.isWhitespace (c :: m)
  rw [hat] at hpre
  obtain ⟨s, hs⟩ := hpre
  simp only [List.cons_append, List.cons.injEq] at hs
  exact ⟨t, by rw [hat, hs.1]⟩

/-- A line that is already an annotated line (it starts with `"# "`) fails
the eligibility filter: its stripped form still starts with `#`. -/
lemma is_eligible_eq_false_of_annotated {l : String} (h : pyStartsWith l "# " = true) :
    is_eligible l = false := by
  rw [pyStartsWith, List.isPrefixOf_iff_prefix] at h
  obtain ⟨t, ht⟩ := h
  have hdata : l.data = '#' :: ' ' :: t := by
    rw [← ht]; rfl
  obtain ⟨t', ht'⟩ := stripChars_cons_of_not_ws (c := '#') (by decide) (' ' :: t)
  have hstrip : (pyStrip l).data = '#' :: t' := by
    rw [pyStrip, hdata, ht']
  rw [is_eligible, url_eligible]
  have hhash : pyStartsWith (pyStrip l) "#" = true := by
    rw [pyStartsWith, List.isPrefixOf_iff_prefix, hstrip]
    exact ⟨t', rfl⟩
  rw [hhash]
  simp

/-- The rewritten line produced for a processed entry always starts with the
comment marker `"# "`. -/
lemma annotate_line_starts_with_marker (url title : String) :
    pyStartsWith (annotate_line url title) "# " = true := by
  have key : ∀ s : String, pyStartsWith ("# " ++ s) "# " = true := by
    intro s
    rw [pyStartsWith, List.isPrefixOf_iff_prefix, String.data_append]
    exact ⟨s.data, rfl⟩
  rw [annotate_line]
  split
  · exact key (url ++ " # " ++ title ++ "\n")
  · split
    · exact key (url ++ " # " ++ title ++ "\n")
    · exact key (url ++ " # ERROR: " ++ title ++ "\n")

/-- A rewritten line is ineligible on a later run. -/
lemma is_eligible_annotate_line (url title : String) :
    is_eligible (annotate_line url title) = false :=
  is_eligible_eq_false_of_annotated (annotate_line_starts_with_marker url title)

/-- A string differs from `""` exactly when its character list is
non-empty. -/
lemma data_isEmpty_eq_false_of_ne_empty {u : String} (h : u ≠ "") :
    u.data.isEmpty = false := by
  rcases hd : u.data with _ | ⟨c, t⟩
  · exact absurd (String.ext hd) h
  · rfl

/-- When every line of the current state is ineligible, one loop iteration
changes nothing. -/
lemma loop_step_eq_self (urlArg : Option String) (cfg : Config) (fsAt : ℕ → List FsEntry)
    (ws : ℕ → World) (s : LoopState) (i : ℕ)
    (h : ∀ l ∈ s.lines, is_eligible l = false) :
    loop_step urlArg cfg fsAt ws s i = s := by
  rw [loop_step]
  rcases hline : s.lines[i]? with _ | line
  · rfl
  · have helig : is_eligible line = false := h line (List.getElem?_mem hline)
    rw [is_eligible] at helig
    simp [helig]

/-- When every line of the state is ineligible, the whole loop changes
nothing. -/
lemma run_loop_eq_self (urlArg : Option String) (cfg : Config) (fsAt : ℕ → List FsEntry)
    (ws : ℕ → World) (s : LoopState) (idxs : List ℕ)
    (h : ∀ l ∈ s.lines, is_eligible l = false) :
    run_loop urlArg cfg fsAt ws s idxs = s := by
  induction idxs with
  | nil => rfl
  | cons i rest ih =>
    rw [run_loop, List.foldl_cons, loop_step_eq_self urlArg cfg fsAt ws s i h]
    exact ih

/-- In single-URL mode no iteration appends a links-file write. -/
lemma run_loop_writes_of_url_mode (urlArg : Option String) (cfg : Config)
    (fsAt : ℕ → List FsEntry) (ws : ℕ → World) (s : LoopState) (idxs : List ℕ)
    (hm : url_mode urlArg = true) :
    (run_loop urlArg cfg fsAt ws s idxs).writes = s.writes := by
  induction idxs generalizing s with
  | nil => rfl
  | cons i rest ih =>
    rw [run_loop, List.foldl_cons]
    rw [show (List.foldl (loop_step urlArg cfg fsAt ws) (loop_step urlArg cfg fsAt ws s i) rest)
        = run_loop urlArg cfg fsAt ws (loop_step urlArg cfg fsAt ws s i) rest from rfl]
    rw [ih]
    rw [loop_step]
    rcases s.lines[i]? with _ | line
    · rfl
    · dsimp only
      split
      · rfl
      · simp [hm]

/-- The final text of the line at index `i`, as a function of its original
text: the annotated rewrite for eligible lines, the original text
otherwise. -/
def processed_line (cfg : Config) (fsAt : ℕ → List FsEntry) (ws : ℕ → World) (i : ℕ)
    (line : String) : String :=
  if is_eligible line then
    annotate_line (pyStrip line) ((download_audio (pyStrip line) cfg (fsAt i) (ws i)).1)
  else line

/-- Main-loop invariant on the line list: after visiting the indices
`0, …, k-1` of a line list `ls`, the length is unchanged, every index below
`k` holds its processed text, and every index from `k` up still holds its
original text. -/
lemma run_loop_range_lines (urlArg : Option String) (cfg : Config) (fsAt : ℕ → List FsEntry)
    (ws : ℕ → World) (ls : List String) (st : RunStats) (wr : List (List String)) (k : ℕ)
    (hk : k ≤ ls.length) :
    (run_loop urlArg cfg fsAt ws ⟨ls, st, wr⟩ (List.range k)).lines.length = ls.length ∧
    ∀ i : ℕ, (run_loop urlArg cfg fsAt ws ⟨ls, st, wr⟩ (List.range k)).lines[i]? =
      if i < k then (ls[i]?).map (processed_line cfg fsAt ws i) else ls[i]? := by
  induction k with
  | zero =>
    refine ⟨rfl, fun i => ?_⟩
    simp [run_loop]
  | succ k ih =>
    have hk' : k ≤ ls.length := Nat.le_of_succ_le hk
    obtain ⟨ihlen, ihget⟩ := ih hk'
    have hsplit : run_loop urlArg cfg fsAt ws ⟨ls, st, wr⟩ (List.range (k + 1))
        = loop_step urlArg cfg fsAt ws (run_loop urlArg cfg fsAt ws ⟨ls, st, wr⟩ (List.range k)) k := by
      rw [run_loop, List.range_succ, List.foldl_append, List.foldl_cons, List.foldl_nil]
      rfl
    set sk := run_loop urlArg cfg fsAt ws ⟨ls, st, wr⟩ (List.range k) with hsk
    have hkget : sk.lines[k]? = ls[k]? := by
      rw [ihget k, if_neg (lt_irrefl k)]
    have hklt : k < ls.length := Nat.lt_of_succ_le hk
    obtain ⟨linek, hlinek⟩ : ∃ l, ls[k]? = some l :=
      ⟨ls[k], (List.getElem?_eq_getElem hklt)⟩
    rw [hsplit, loop_step, hkget, hlinek]
    dsimp only
    rcases helig : is_eligible linek with _ | _
    · rw [is_eligible] at helig
      rw [helig]
      simp only [Bool.not_false, if_true]
      refine ⟨ihlen, fun i => ?_⟩
      rw [ihget i]
      rcases Nat.lt_trichotomy i k with hik | hik | hik
      · rw [if_pos hik, if_pos (Nat.lt_succ_of_lt hik)]
      · subst hik
        rw [if_neg (lt_irrefl i), if_pos (Nat.lt_succ_self i), hlinek]
        simp [processed_line, is_eligible, helig]
      · rw [if_neg (Nat.lt_asymm hik), if_neg (by omega)]
    · rw [is_eligible] at helig
      rw [helig]
      simp only [Bool.not_true, Bool.false_eq_true, if_false]
      refine ⟨?_, fun i => ?_⟩
      · rw [List.length_set, ihlen]
      · rw [List.getElem?_set, ihlen, ihget i]
        rcases Nat.lt_trichotomy i k with hik | hik | hik
        · rw [if_neg (by omega : ¬k = i), if_pos hik, if_pos (by omega : i < k + 1)]
        · rw [if_pos (by omega : k = i), if_pos (by omega : k < ls.length),
            if_pos (by omega : i < k + 1), show ls[i]? = some linek from hik ▸ hlinek]
          have hik' : i = k := hik
          subst hik'
          simp [processed_line, is_eligible, helig]
        · rw [if_neg (by omega : ¬k = i), if_neg (by omega : ¬i < k), if_neg (by omega : ¬i < k + 1)]

/-- Unfolding of a completed run: when line selection succeeds, the run is
the loop fold over all indices starting from zero counters and no writes. -/
lemma run_main_some_lines (urlArg : Option String) (lf : LinksFileSt) (cfg : Config)
    (fsAt : ℕ → List FsEntry) (ws : ℕ → World) (ls : List String)
    (hsel : select_lines urlArg lf = some ls) :
    run_main true urlArg lf cfg fsAt ws
      = some ⟨(run_loop urlArg cfg fsAt ws ⟨ls, ⟨0, 0, 0, 0⟩, []⟩ (List.range ls.length)).lines,
              (run_loop urlArg cfg fsAt ws ⟨ls, ⟨0, 0, 0, 0⟩, []⟩ (List.range ls.length)).stats,
              (run_loop urlArg cfg fsAt ws ⟨ls, ⟨0, 0, 0, 0⟩, []⟩ (List.range ls.length)).writes⟩ := by
  rw [run_main, hsel]
  rfl

/-- A truthy (non-empty) `--url` argument selects single-URL mode. -/
lemma select_lines_of_ne_empty {u : String} (hu : u ≠ "") (lf : LinksFileSt) :
    select_lines (some u) lf = some [u] := by
  simp [select_lines, data_isEmpty_eq_false_of_ne_empty hu]

/-! ## The claims -/

/-- C1: in links-file mode, after a complete run every originally-eligible
line (non-empty after trimming, not a comment, scheme-prefixed) is rewritten
exactly once into the annotated form built from its original text, every
originally-ineligible line is unchanged, and this holds for every behaviour
of the external collaborator — in particular a failure outcome at one line
never prevents the remaining eligible lines from being processed and
rewritten. -/
theorem C1_every_eligible_line_rewritten_once (ls : List String) (cfg : Config)
    (fsAt : ℕ → List FsEntry) (ws : ℕ → World) :
    ∃ r : RunResult, run_main true none (.content ls) cfg fsAt ws = some r ∧
      r.lines.length = ls.length ∧
      (∀ i : ℕ, r.lines[i]? = (ls[i]?).map (processed_line cfg fsAt ws i)) ∧
      (∀ i : ℕ, ∀ line : String, ls[i]? = some line → is_eligible line = true →
        r.lines[i]? = some (annotate_line (pyStrip line)
          ((download_audio (pyStrip line) cfg (fsAt i) (ws i)).1)) ∧
        pyStartsWith (annotate_line (pyStrip line)
          ((download_audio (pyStrip line) cfg (fsAt i) (ws i)).1)) "# " = true) ∧
      (∀ i : ℕ, ∀ line : String, ls[i]? = some line → is_eligible line = false →
        r.lines[i]? = some line) := by
  obtain ⟨hlen, hget⟩ := run_loop_range_lines none cfg fsAt ws ls ⟨0, 0, 0, 0⟩ []
    ls.length (le_refl ls.length)
  set fin := run_loop none cfg fsAt ws ⟨ls, ⟨0, 0, 0, 0⟩, []⟩ (List.range ls.length) with hfin
  have hmap : ∀ i : ℕ, fin.lines[i]? = (ls[i]?).map (processed_line cfg fsAt ws i) := by
    intro i
    rw [hget i]
    by_cases hi : i < ls.length
    · rw [if_pos hi]
    · rw [if_neg hi, List.getElem?_eq_none (by omega)]
      rfl
  refine ⟨⟨fin.lines, fin.stats, fin.writes⟩, rfl, hlen, hmap, ?_, ?_⟩
  · intro i line hline helig
    constructor
    · rw [hmap i, hline, Option.map_some']
      rw [processed_line, if_pos helig]
    · exact annotate_line_starts_with_marker _ _
  · intro i line hline helig
    rw [hmap i, hline, Option.map_some', processed_line, if_neg (by rw [helig]; exact
      Bool.false_ne_true)]

/-- Witness for C1 at a concrete three-line file whose first eligible line
fails with a download error while the second eligible line succeeds: the
failed line and the later line are both rewritten, the junk line is
untouched. -/
theorem C1_witness :
    ∃ r : RunResult, run_main true none (.content ["http://a\n", "junk\n", "http://b\n"])
        default_config (fun _ => [])
        (fun i => if i = 0 then ⟨.failed, .download_error "HTTP Error 404"⟩
                  else ⟨.failed, .ok (some ⟨some "T"⟩)⟩) = some r ∧
      r.lines[0]? = some "# http://a # ERROR: DOWNLOAD ERROR\n" ∧
      r.lines[1]? = some "junk\n" ∧
      r.lines[2]? = some "# http://b # T\n" := by
  obtain ⟨r, hr, hlen, hmap, heli, hineli⟩ :=
    C1_every_eligible_line_rewritten_once ["http://a\n", "junk\n", "http://b\n"]
      default_config (fun _ => [])
      (fun i => if i = 0 then ⟨.failed, .download_error "HTTP Error 404"⟩
                else ⟨.failed, .ok (some ⟨some "T"⟩)⟩)
  refine ⟨r, hr, ?_, ?_, ?_⟩
  · rw [(heli 0 "http://a\n" rfl (by decide)).1]
    rfl
  · rw [hineli 1 "junk\n" rfl (by decide)]
  · rw [(heli 2 "http://b\n" rfl (by decide)).1]
    rfl

/-- C2: on a link file in which every line is already annotated (starts with
`"# "`), a second run processes zero entries: no line passes the eligibility
filter, no line is rewritten, no links-file write happens, and all four
counters stay zero. -/
theorem C2_second_run_processes_nothing (ls : List String) (cfg : Config)
    (fsAt : ℕ → List FsEntry) (ws : ℕ → World)
    (h : ∀ l ∈ ls, pyStartsWith l "# " = true) :
    run_main true none (.content ls) cfg fsAt ws = some ⟨ls, ⟨0, 0, 0, 0⟩, []⟩ := by
  have hall : ∀ l ∈ (⟨ls, ⟨0, 0, 0, 0⟩, []⟩ : LoopState).lines, is_eligible l = false :=
    fun l hl => is_eligible_eq_false_of_annotated (h l hl)
  have hrl := run_loop_eq_self none cfg fsAt ws ⟨ls, ⟨0, 0, 0, 0⟩, []⟩
    (List.range ls.length) hall
  have hrun : run_main true none (.content ls) cfg fsAt ws
      = some ⟨(run_loop none cfg fsAt ws ⟨ls, ⟨0, 0, 0, 0⟩, []⟩ (List.range ls.length)).lines,
              (run_loop none cfg fsAt ws ⟨ls, ⟨0, 0, 0, 0⟩, []⟩ (List.range ls.length)).stats,
              (run_loop none cfg fsAt ws ⟨ls, ⟨0, 0, 0, 0⟩, []⟩ (List.range ls.length)).writes⟩ :=
    rfl
  rw [hrun, hrl]

/-- Witness for C2: the output of a first run on a one-line file is fully
annotated, so the second run returns it untouched with zero counters. -/
theorem C2_witness :
    run_main true none (.content ["# http://a # T\n"]) default_config (fun _ => [])
        (fun _ => ⟨.failed, .ok (some ⟨some "T"⟩)⟩)
      = some ⟨["# http://a # T\n"], ⟨0, 0, 0, 0⟩, []⟩ :=
  C2_second_run_processes_nothing ["# http://a # T\n"] default_config (fun _ => [])
    (fun _ => ⟨.failed, .ok (some ⟨some "T"⟩)⟩) (by decide)

/-- C3: with `update_interval = 5` and initial `last_progress = 0`, the
percentage sequence `[1,2,6,6,11,99,100]` emits exactly the progress values
`6, 11, 99` in that order, and a subsequent finished event emits one
completion notice; in general a downloading event emits iff the new
percentage minus the last emitted one is at least the interval, the
last-emitted value moves only on emission, and the completion notice is
independent of the threshold. -/
theorem C3_progress_throttle (u : String) :
    (run_hooks ⟨u, 0, 5⟩
        (([1, 2, 6, 6, 11, 99, 100] : List ℚ).map (fun p => .downloading (some p))
          ++ [.finished])).2
      = [.progress 6, .progress 11, .progress 99, .completed u] ∧
    (∀ s : DownloadProgress, ∀ p : ℚ,
      (p - s.last_progress ≥ s.update_interval →
        progress_hook s (.downloading (some p)) = ({ s with last_progress := p }, [.progress p])) ∧
      (¬p - s.last_progress ≥ s.update_interval →
        progress_hook s (.downloading (some p)) = (s, []))) ∧
    (∀ s : DownloadProgress, progress_hook s .finished = (s, [.completed s.url])) := by
  refine ⟨?_, fun s p => ⟨fun h => ?_, fun h => ?_⟩, fun s => rfl⟩
  · norm_num [run_hooks, progress_hook]
  · simp only [progress_hook, if_pos h]
  · simp only [progress_hook, if_neg h]

/-- Witness for C3 at one concrete state and percentage: a crossing from 0
to 6 with interval 5 emits and moves the last-emitted value. -/
theorem C3_witness :
    ((6 : ℚ) - 0 ≥ 5) ∧
    progress_hook ⟨"http://u", 0, 5⟩ (.downloading (some 6))
      = (⟨"http://u", 6, 5⟩, [.progress 6]) :=
  ⟨by norm_num,
   ((C3_progress_throttle "http://u").2.1 ⟨"http://u", 0, 5⟩ 6).1 (by norm_num)⟩

/-- C4: when the probe returns a truthy metadata dictionary with a non-empty
title and the title scan of the output tree finds a matching file (extension
equal to the configured codec, title a case-insensitive substring of the
filename), processing yields a SKIPPED outcome carrying the matched path's
basename and the fetch call is never invoked. -/
theorem C4_match_skips_and_never_fetches (url t : String) (d : InfoDict) (cfg : Config)
    (fs : List FsEntry) (w : World) (e : FsEntry)
    (hprobe : w.probe = .ok (some d)) (htitle : d.title = some t) (hne : t ≠ "")
    (hfind : scan_for t cfg.codec fs = some e) (hskip : cfg.skip_existing = true) :
    check_file_exists url (some d) cfg fs = some (os_path_join e.root e.file) ∧
    download_audio url cfg fs w
      = ("SKIPPED (exists: " ++ pyBasename (os_path_join e.root e.file) ++ ")", false) := by
  have hch : check_file_exists url (some d) cfg fs = some (os_path_join e.root e.file) := by
    rw [check_file_exists, hskip]
    simp [htitle, hne, hfind]
  exact ⟨hch, by simp [download_audio, hprobe, hch]⟩

/-- Witness for C4 at the spec's example: output directory containing
`"My Song.mp3"`, probed title `"My Song"`: the URL is skipped and fetch is
not reached. -/
theorem C4_witness :
    check_file_exists "http://a" (some ⟨some "My Song"⟩) default_config
        [⟨"./audiodownloads", "My Song.mp3"⟩] = some "./audiodownloads/My Song.mp3" ∧
    download_audio "http://a" default_config [⟨"./audiodownloads", "My Song.mp3"⟩]
        ⟨.ok (some ⟨some "My Song"⟩), .other_error "never fetched"⟩
      = ("SKIPPED (exists: My Song.mp3)", false) := by
  have h := C4_match_skips_and_never_fetches "http://a" "My Song" ⟨some "My Song"⟩
    default_config [⟨"./audiodownloads", "My Song.mp3"⟩]
    ⟨.ok (some ⟨some "My Song"⟩), .other_error "never fetched"⟩
    ⟨"./audiodownloads", "My Song.mp3"⟩ rfl rfl (by decide) (by decide) rfl
  exact ⟨by rw [h.1]; decide, by rw [h.2]; decide⟩

/-- C5 counterexample: a 404-class failure and a 403-class failure are
classified into different kinds, yet the outcome recorded for both is the
identical string `"DOWNLOAD ERROR"` — the recorded outcomes of the message
classes are not pairwise distinguishable, contrary to the claim. -/
theorem C5_counterexample :
    download_audio "http://a" default_config []
        ⟨.failed, .download_error "HTTP Error 404: Not Found"⟩
      = download_audio "http://a" default_config []
        ⟨.failed, .download_error "HTTP Error 403: Forbidden"⟩ ∧
    classify_download_error "HTTP Error 404: Not Found" = .NotFound ∧
    classify_download_error "HTTP Error 403: Forbidden" = .Forbidden ∧
    (download_audio "http://a" default_config []
        ⟨.failed, .download_error "HTTP Error 404: Not Found"⟩).1 = "DOWNLOAD ERROR" := by
  exact ⟨rfl, by decide, by decide, rfl⟩

/-- C5 amended: a fetch failure raised as `DownloadError` is classified from
its message by substring matching (404 before 403 before Unsupported URL,
otherwise Generic) into pairwise-distinct kinds, but the kind only selects
the log line: the recorded outcome is `"DOWNLOAD ERROR"` for every such
failure. -/
theorem C5_amended_kind_selects_log_only (url msg : String) (cfg : Config)
    (fs : List FsEntry) (w : World)
    (hp : w.probe = .failed) (hf : w.fetch = .download_error msg) :
    download_audio url cfg fs w = ("DOWNLOAD ERROR", true) ∧
    (pyContains msg "HTTP Error 404" = true → classify_download_error msg = .NotFound) ∧
    (pyContains msg "HTTP Error 404" = false → pyContains msg "HTTP Error 403" = true →
      classify_download_error msg = .Forbidden) ∧
    (pyContains msg "HTTP Error 404" = false → pyContains msg "HTTP Error 403" = false →
      pyContains msg "Unsupported URL" = true →
      classify_download_error msg = .UnsupportedUrl) ∧
    (pyContains msg "HTTP Error 404" = false → pyContains msg "HTTP Error 403" = false →
      pyContains msg "Unsupported URL" = false → classify_download_error msg = .Generic) ∧
    ([ErrorKind.NotFound, .Forbidden, .UnsupportedUrl, .Generic].Pairwise (· ≠ ·)) := by
  refine ⟨by simp [download_audio, hp, hf], ?_, ?_, ?_, ?_, by decide⟩
  · intro h1
    simp [classify_download_error, h1]
  · intro h1 h2
    simp [classify_download_error, h1, h2]
  · intro h1 h2 h3
    simp [classify_download_error, h1, h2, h3]
  · intro h1 h2 h3
    simp [classify_download_error, h1, h2, h3]

/-- Witness for the amended C5 at a concrete Unsupported-URL failure. -/
theorem C5_amended_witness :
    download_audio "http://a" default_config []
        ⟨.failed, .download_error "ERROR: Unsupported URL: http://a"⟩
      = ("DOWNLOAD ERROR", true) ∧
    classify_download_error "ERROR: Unsupported URL: http://a" = .UnsupportedUrl := by
  have h := C5_amended_kind_selects_log_only "http://a" "ERROR: Unsupported URL: http://a"
    default_config [] ⟨.failed, .download_error "ERROR: Unsupported URL: http://a"⟩ rfl rfl
  exact ⟨h.1, h.2.2.2.1 (by decide) (by decide) (by decide)⟩

/-- C6 counterexample: a config file that parses as the valid but empty JSON
object is returned verbatim by `load_config` — no per-field fallback to the
defaults happens — and the subsequent `setup_logging` subscripts fail with a
`KeyError` instead of proceeding with default values. -/
theorem C6_counterexample :
    load_config (.ok ⟨none, none, none, none⟩) = ⟨none, none, none, none⟩ ∧
    load_config (.ok ⟨none, none, none, none⟩) ≠ get_default_config ∧
    setup_logging_lookups (load_config (.ok ⟨none, none, none, none⟩)) = none :=
  ⟨rfl, by decide, rfl⟩

/-- C6 amended: defaults are applied only as a whole block and only when the
config file is missing, unreadable, or not valid JSON; a file that parses as
valid JSON is used verbatim with no per-field fallback, and a later access
to an omitted block fails (`KeyError`) rather than proceeding with the
documented default. -/
theorem C6_amended_whole_block_fallback_only (j : JConfig) :
    load_config (.ok j) = j ∧
    load_config .missing = get_default_config ∧
    load_config .parse_error = get_default_config ∧
    load_config .io_error = get_default_config ∧
    (j.paths = none → setup_logging_lookups (load_config (.ok j)) = none) := by
  refine ⟨rfl, rfl, rfl, rfl, fun h => ?_⟩
  rcases hl : j.logging <;> simp [setup_logging_lookups, load_config, h, hl]

/-- Witness for the amended C6 at the empty parsed dictionary. -/
theorem C6_amended_witness :
    load_config (.ok ⟨none, none, none, none⟩) = ⟨none, none, none, none⟩ ∧
    setup_logging_lookups (load_config (.ok ⟨none, none, none, none⟩)) = none :=
  ⟨(C6_amended_whole_block_fallback_only ⟨none, none, none, none⟩).1,
   (C6_amended_whole_block_fallback_only ⟨none, none, none, none⟩).2.2.2.2 rfl⟩

/-- C7: a missing, unreadable, or malformed config file makes `load_config`
return exactly the fixed default configuration (codec mp3, quality 320,
sample rate 48000, links file links.txt, output dir ./audiodownloads, log
file audiodownloader.log, skip_existing true, progress interval 1.0, quiet
false, both logging levels INFO), and since every branch returns a value —
and the default dictionary satisfies every later subscript — this condition
never aborts the run. -/
theorem C7_defaults_on_unreadable_config :
    load_config .missing = get_default_config ∧
    load_config .parse_error = get_default_config ∧
    load_config .io_error = get_default_config ∧
    get_default_config
      = { audio := some ⟨some "mp3", some "320", some "48000"⟩
          paths := some ⟨some "links.txt", some "./audiodownloads", some "audiodownloader.log"⟩
          behavior := some ⟨some true, some 1, some false⟩
          logging := some ⟨some "INFO", some "INFO",
            some "%(asctime)s - %(levelname)s - %(message)s", some "%Y-%m-%d %H:%M:%S"⟩ } ∧
    setup_logging_lookups get_default_config
      = some ("audiodownloader.log", "INFO", "INFO",
          "%(asctime)s - %(levelname)s - %(message)s", "%Y-%m-%d %H:%M:%S") :=
  ⟨rfl, rfl, rfl, rfl, rfl⟩

/-- C8 counterexample: `main` tests `if args.url:` — Python truthiness, not
presence — so a run given the `--url` flag with the empty string falls into
links-file mode and does write the file named by `paths.links_file`. -/
theorem C8_counterexample :
    (run_main true (some "") (.content ["http://a\n"]) default_config (fun _ => [])
        (fun _ => ⟨.failed, .ok (some ⟨some "T"⟩)⟩)).map RunResult.writes
      = some [["# http://a # T\n"]] := rfl

/-- C8 amended: for every run given a non-empty `--url` value, no links-file
write is ever performed, whatever the outcome of processing that URL; an
empty-string `--url` value instead falls back to links-file mode. -/
theorem C8_amended_nonempty_url_never_writes (dirOk : Bool) (u : String) (lf : LinksFileSt)
    (cfg : Config) (fsAt : ℕ → List FsEntry) (ws : ℕ → World) (r : RunResult)
    (hu : u ≠ "") (hr : run_main dirOk (some u) lf cfg fsAt ws = some r) :
    r.writes = [] := by
  have hm : url_mode (some u) = true := by
    simp [url_mode, data_isEmpty_eq_false_of_ne_empty hu]
  rcases dirOk with _ | _
  · rw [run_main] at hr
    simp at hr
  · rw [run_main_some_lines (some u) lf cfg fsAt ws [u]
      (select_lines_of_ne_empty hu lf)] at hr
    obtain rfl := (Option.some.inj hr).symm
    exact run_loop_writes_of_url_mode (some u) cfg fsAt ws ⟨[u], ⟨0, 0, 0, 0⟩, []⟩
      (List.range [u].length) hm

/-- Witness for the amended C8: a non-empty single URL is processed to
completion yet the writes list stays empty. -/
theorem C8_amended_witness :
    ∃ r : RunResult, run_main true (some "http://a") (.content ["ignored\n"]) default_config
        (fun _ => []) (fun _ => ⟨.failed, .ok (some ⟨some "T"⟩)⟩) = some r ∧ r.writes = [] := by
  rcases hr : run_main true (some "http://a") (.content ["ignored\n"]) default_config
      (fun _ => []) (fun _ => ⟨.failed, .ok (some ⟨some "T"⟩)⟩) with _ | r
  · exact absurd hr (by decide)
  · exact ⟨r, rfl, C8_amended_nonempty_url_never_writes true "http://a" (.content ["ignored\n"])
      default_config (fun _ => []) (fun _ => ⟨.failed, .ok (some ⟨some "T"⟩)⟩) r
      (by decide) hr⟩

/-- C9: the main loop classifies outcomes by string matching on the returned
title.  A fetch that succeeds (the fetch call is invoked and returns a
dictionary) with the real title `"DOWNLOAD ERROR"` is recorded as an error —
error counter incremented and the line annotated with `ERROR:` — and a
successful fetch whose real title starts with `"SKIPPED"` is recorded as
skipped instead of a success. -/
theorem C9_sentinel_titles_misclassify_outcomes :
    download_audio "http://a" default_config []
        ⟨.failed, .ok (some ⟨some "DOWNLOAD ERROR"⟩)⟩ = ("DOWNLOAD ERROR", true) ∧
    run_main true none (.content ["http://a\n"]) default_config (fun _ => [])
        (fun _ => ⟨.failed, .ok (some ⟨some "DOWNLOAD ERROR"⟩)⟩)
      = some ⟨["# http://a # ERROR: DOWNLOAD ERROR\n"], ⟨1, 0, 1, 0⟩,
          [["# http://a # ERROR: DOWNLOAD ERROR\n"]]⟩ ∧
    download_audio "http://a" default_config []
        ⟨.failed, .ok (some ⟨some "SKIPPED track"⟩)⟩ = ("SKIPPED track", true) ∧
    run_main true none (.content ["http://a\n"]) default_config (fun _ => [])
        (fun _ => ⟨.failed, .ok (some ⟨some "SKIPPED track"⟩)⟩)
      = some ⟨["# http://a # SKIPPED track\n"], ⟨1, 0, 0, 1⟩,
          [["# http://a # SKIPPED track\n"]]⟩ :=
  ⟨rfl, rfl, rfl, rfl⟩

/-- C10 counterexample: the `--url` flag given with the empty string — whose
trimmed form is empty, so the claim asserts zero processed entries — makes
the run fall into links-file mode and process the links file: one entry is
processed. -/
theorem C10_counterexample :
    (run_main true (some "") (.content ["http://a\n"]) default_config (fun _ => [])
        (fun _ => ⟨.failed, .ok (some ⟨some "T"⟩)⟩)).map (fun r => r.stats.processed)
      = some 1 := rfl

/-- C10 amended: a run given a non-empty `--url` value that fails the
eligibility filter (after trimming: empty, a comment, or not
scheme-prefixed) processes zero entries — all four counters zero, the line
untouched, nothing written, and the result is the same for every behaviour
of the collaborator, so no probe or fetch happens; an empty-string `--url`
value instead selects links-file mode. -/
theorem C10_amended_ineligible_url_processes_nothing (u : String) (lf : LinksFileSt)
    (cfg : Config) (fsAt : ℕ → List FsEntry) (ws : ℕ → World)
    (hu : u ≠ "") (helig : is_eligible u = false) :
    run_main true (some u) lf cfg fsAt ws = some ⟨[u], ⟨0, 0, 0, 0⟩, []⟩ := by
  have hall : ∀ l ∈ (⟨[u], ⟨0, 0, 0, 0⟩, []⟩ : LoopState).lines, is_eligible l = false := by
    intro l hl
    obtain rfl := List.mem_singleton.mp hl
    exact helig
  rw [run_main_some_lines (some u) lf cfg fsAt ws [u] (select_lines_of_ne_empty hu lf),
    run_loop_eq_self (some u) cfg fsAt ws ⟨[u], ⟨0, 0, 0, 0⟩, []⟩
      (List.range [u].length) hall]

/-- Witness for the amended C10 at a concrete whitespace-and-comment
argument. -/
theorem C10_amended_witness :
    run_main true (some "   #note") (.content ["http://x\n"]) default_config (fun _ => [])
        (fun _ => ⟨.failed, .ok (some ⟨some "T"⟩)⟩)
      = some ⟨["   #note"], ⟨0, 0, 0, 0⟩, []⟩ :=
  C10_amended_ineligible_url_processes_nothing "   #note" (.content ["http://x\n"])
    default_config (fun _ => []) (fun _ => ⟨.failed, .ok (some ⟨some "T"⟩)⟩)
    (by decide) (by decide)

end AudioDL
